import Mathlib

/-
  Verification of the Super-tracking-bot core (src/main.py) against its
  natural-language specification.

  The Python code is shallowly embedded: the process-wide mutable state
  (caches, stop-time table, scheduler task table) is passed explicitly,
  `datetime.now()` becomes an explicit integer timestamp parameter
  (seconds), Python floats become rationals, dicts become association
  lists, and network providers become oracle functions supplied as
  parameters.
-/

namespace SuperTrackingBot

/-! ### Association lists (shallow embedding of Python dicts) -/

def lookupA {K V : Type} [DecidableEq K] (l : List (K × V)) (k : K) : Option V :=
  match l with
  | [] => none
  | (k', v) :: rest => if k' = k then some v else lookupA rest k

def eraseA {K V : Type} [DecidableEq K] (k : K) (l : List (K × V)) : List (K × V) :=
  l.filter (fun p => decide (p.1 ≠ k))

def insertA {K V : Type} [DecidableEq K] (k : K) (v : V) (l : List (K × V)) :
    List (K × V) :=
  (k, v) :: eraseA k l

theorem lookupA_eraseA_self {K V : Type} [DecidableEq K] (k : K) (l : List (K × V)) :
    lookupA (eraseA k l) k = none := by
  induction l with
  | nil => rfl
  | cons p rest ih =>
    by_cases h : p.1 = k
    · simp [eraseA, List.filter, h] at ih ⊢
      exact ih
    · simp [eraseA, List.filter, h] at ih ⊢
      simp [lookupA, h]
      exact ih

theorem lookupA_insertA_self {K V : Type} [DecidableEq K] (k : K) (v : V)
    (l : List (K × V)) : lookupA (insertA k v l) k = some v := by
  simp [insertA, lookupA]

theorem lookupA_eraseA_ne {K V : Type} [DecidableEq K] (k k' : K) (l : List (K × V))
    (h : k' ≠ k) : lookupA (eraseA k l) k' = lookupA l k' := by
  induction l with
  | nil => rfl
  | cons p rest ih =>
    by_cases hp : p.1 = k
    · simp [eraseA, List.filter, hp] at ih ⊢
      rw [ih]
      have : p.1 ≠ k' := by rw [hp]; exact fun hh => h hh.symm
      simp [lookupA, this]
    · simp [eraseA, List.filter, hp] at ih ⊢
      by_cases hq : p.1 = k'
      · simp [lookupA, hq]
      · simp [lookupA, hq]
        exact ih

theorem lookupA_insertA_ne {K V : Type} [DecidableEq K] (k k' : K) (v : V)
    (l : List (K × V)) (h : k' ≠ k) :
    lookupA (insertA k v l) k' = lookupA l k' := by
  have hk : ¬(k = k') := fun hh => h hh.symm
  simp [insertA, lookupA, hk]
  exact lookupA_eraseA_ne k k' l h

/-! ### DistanceResolver anti-regression cache (`is_distance_valid`, main.py 431-457)

A cache entry per `(chat_id, destination)` holding the accepted distance,
the time it was recorded, and the driver location snapshot. -/

structure DistEntry where
  distance : ℚ
  timestamp : ℤ
  driverLocation : String
deriving DecidableEq

/-- `self.distance_cache_duration = 60` seconds. -/
def distance_cache_duration : ℤ := 60

abbrev DistCache := List ((ℤ × String) × DistEntry)

/-- Embedding of `is_distance_valid` (main.py 431-457).  Returns the boolean
verdict together with the updated cache. -/
def is_distance_valid (now : ℤ) (chat_id : ℤ) (destination : String)
    (new_distance : ℚ) (driver_location : String) (cache : DistCache) :
    Bool × DistCache :=
  match lookupA cache (chat_id, destination) with
  | none =>
      (true, insertA (chat_id, destination)
        ⟨new_distance, now, driver_location⟩ cache)
  | some cached =>
      if now - cached.timestamp < distance_cache_duration ∧
          new_distance > cached.distance then
        (false, cache)
      else
        (true, insertA (chat_id, destination)
          ⟨new_distance, now, driver_location⟩ cache)

/-- Embedding of the validation gate inside `calculate_distance_and_time`
(main.py 505-509, 579-581, 596-598): every successful computation carrying a
`chat_id` is passed through `is_distance_valid`; on rejection the whole call
returns `None`. -/
def validate_distance_result {α : Type} (now : ℤ) (chat_id : Option ℤ)
    (destination : String) (result : α) (distance_miles : ℚ)
    (origin_address : String) (cache : DistCache) : Option α × DistCache :=
  match chat_id with
  | none => (some result, cache)
  | some cid =>
      let v := is_distance_valid now cid destination distance_miles
        origin_address cache
      if v.1 then (some result, v.2) else (none, v.2)

/-- Concrete anti-regression cache with one entry: chat 1, destination "D",
distance 100 miles recorded at time 0. -/
def c1CacheEx : DistCache := [((1, "D"), ⟨100, 0, "origin0"⟩)]

/-- C1 (distance anti-regression): for every distance computation carrying a
consumer id, if a cache entry for the same (consumer, destination) exists
whose age is below `distance_cache_duration` and the new distance is strictly
greater than the cached one, the resolve call returns no result and the cache
is unchanged; in every other case the value is returned to the caller and
overwrites the cache entry with a fresh timestamp. -/
theorem distance_anti_regression {α : Type} (now cid : ℤ) (dest origin : String)
    (d : ℚ) (r : α) (cache : DistCache) :
    (∀ e : DistEntry, lookupA cache (cid, dest) = some e →
        now - e.timestamp < distance_cache_duration → d > e.distance →
        validate_distance_result now (some cid) dest r d origin cache
          = (none, cache)) ∧
    ((∀ e : DistEntry, lookupA cache (cid, dest) = some e →
        ¬(now - e.timestamp < distance_cache_duration ∧ d > e.distance)) →
      (validate_distance_result now (some cid) dest r d origin cache).1 = some r ∧
      lookupA (validate_distance_result now (some cid) dest r d origin cache).2
          (cid, dest) = some ⟨d, now, origin⟩) := by
  constructor
  · intro e he h1 h2
    simp [validate_distance_result, is_distance_valid, he, h1, h2]
  · intro hno
    cases hl : lookupA cache (cid, dest) with
    | none =>
        simp [validate_distance_result, is_distance_valid, hl,
          lookupA_insertA_self]
    | some e =>
        have hne := hno e hl
        simp [validate_distance_result, is_distance_valid, hl, hne,
          lookupA_insertA_self]

/-- Concrete instance of C1: a 120-mile computation 10s after a cached
100-mile entry is rejected with the cache untouched; the same computation 70s
after (TTL expired) is accepted. -/
theorem distance_anti_regression_witness :
    validate_distance_result 10 (some 1) "D" "r" (120 : ℚ) "L" c1CacheEx
      = (none, c1CacheEx) ∧
    (validate_distance_result 70 (some 1) "D" "r" (120 : ℚ) "L" c1CacheEx).1
      = some "r" := by
  constructor
  · exact (distance_anti_regression 10 1 "D" "L" 120 "r" c1CacheEx).1
      ⟨100, 0, "origin0"⟩ (by decide) (by decide) (by decide)
  · refine ((distance_anti_regression 70 1 "D" "L" 120 "r" c1CacheEx).2 ?_).1
    intro e he
    have h0 : lookupA c1CacheEx (1, "D") = some ⟨100, 0, "origin0"⟩ := by decide
    rw [h0] at he
    cases he
    decide

/-! ### StopTracker (`get_driver_status`, `track_driver_stop_time`,
`check_extended_stop`, main.py 745-804)

`self.driver_stop_times` maps an ELD url to the current stop episode.
`datetime.now()` is the explicit `now` parameter; the parsed speed (the
result of parsing the "<number> mph" string, `none` on parse failure) is
the explicit `speed_parse` parameter. -/

structure StopInfo where
  stopped_since : ℤ
  location : String
  notified : Bool
deriving DecidableEq

abbrev StopTimes := List (String × StopInfo)

/-- `self.extended_stop_threshold = 45 * 60` seconds. -/
def extended_stop_threshold : ℤ := 45 * 60

/-- Embedding of `get_driver_status` (main.py 745-757): a parsed speed above
zero is "Driving", otherwise "Stopped"; an unparseable speed is "Unknown"
with speed 0. -/
def get_driver_status (speed_parse : Option ℚ) : String × ℚ :=
  match speed_parse with
  | some v => if v > 0 then ("🚗 Driving", v) else ("🛑 Stopped", v)
  | none => ("❓ Unknown", 0)

/-- Embedding of `track_driver_stop_time` (main.py 759-787). -/
def track_driver_stop_time (now : ℤ) (eld_url : String) (speed_parse : Option ℚ)
    (current_location : String) (stop_times : StopTimes) :
    Option StopInfo × StopTimes :=
  let speed := (get_driver_status speed_parse).2
  if speed = 0 then
    match lookupA stop_times eld_url with
    | none =>
        let st' := insertA eld_url ⟨now, current_location, false⟩ stop_times
        (lookupA st' eld_url, st')
    | some info =>
        let st' := insertA eld_url
          ⟨info.stopped_since, current_location, info.notified⟩ stop_times
        (lookupA st' eld_url, st')
  else
    (none, eraseA eld_url stop_times)

/-- Embedding of `check_extended_stop` (main.py 789-804). -/
def check_extended_stop (now : ℤ) (eld_url : String) (stop_times : StopTimes) :
    (Bool × Option ℤ) × StopTimes :=
  match lookupA stop_times eld_url with
  | none => ((false, none), stop_times)
  | some info =>
      let stop_duration := now - info.stopped_since
      if stop_duration ≥ extended_stop_threshold ∧ info.notified = false then
        ((true, some (stop_duration / 60)),
          insertA eld_url ⟨info.stopped_since, info.location, true⟩ stop_times)
      else
        ((false, none), stop_times)

theorem eraseA_eraseA {K V : Type} [DecidableEq K] (k : K) (l : List (K × V)) :
    eraseA k (eraseA k l) = eraseA k l := by
  simp [eraseA, List.filter_filter]

theorem insertA_insertA {K V : Type} [DecidableEq K] (k : K) (v v' : V)
    (l : List (K × V)) : insertA k v' (insertA k v l) = insertA k v' l := by
  simp [insertA, eraseA, List.filter_cons, eraseA_eraseA]

theorem eraseA_singleton {K V : Type} [DecidableEq K] (k : K) (v : V) :
    eraseA k [(k, v)] = [] := by
  simp [eraseA, List.filter_cons]

/-- C4 (stop-episode state machine): an episode is created on the first
zero-speed tick with `stopped_since` equal to that tick's time and
`notified = false`; subsequent zero-speed ticks keep `stopped_since` and
`notified` and refresh the location; a tick with positive speed deletes the
record.  In particular three zero-speed ticks from an empty table yield one
episode stamped with the first tick's time, and a fourth positive-speed tick
deletes it. -/
theorem stop_episode_state_machine (now : ℤ) (url loc : String)
    (sp : Option ℚ) (st : StopTimes) :
    ((get_driver_status sp).2 = 0 → lookupA st url = none →
       track_driver_stop_time now url sp loc st
         = (some ⟨now, loc, false⟩, insertA url ⟨now, loc, false⟩ st)) ∧
    (∀ info : StopInfo, (get_driver_status sp).2 = 0 →
       lookupA st url = some info →
       track_driver_stop_time now url sp loc st
         = (some ⟨info.stopped_since, loc, info.notified⟩,
            insertA url ⟨info.stopped_since, loc, info.notified⟩ st)) ∧
    ((get_driver_status sp).2 > 0 →
       track_driver_stop_time now url sp loc st = (none, eraseA url st) ∧
       lookupA (track_driver_stop_time now url sp loc st).2 url = none) ∧
    (∀ t1 t2 t3 t4 : ℤ, ∀ l1 l2 l3 l4 : String, ∀ v : ℚ, v > 0 →
       (track_driver_stop_time t3 url (some 0) l3
          (track_driver_stop_time t2 url (some 0) l2
            (track_driver_stop_time t1 url (some 0) l1 []).2).2).2
         = [(url, ⟨t1, l3, false⟩)] ∧
       (track_driver_stop_time t4 url (some v) l4
          [(url, (⟨t1, l3, false⟩ : StopInfo))]).2 = []) := by
  refine ⟨?_, ?_, ?_, ?_⟩
  · intro hs hl
    simp [track_driver_stop_time, hs, hl, lookupA_insertA_self]
  · intro info hs hl
    simp [track_driver_stop_time, hs, hl, lookupA_insertA_self]
  · intro hs
    have hne : (get_driver_status sp).2 ≠ 0 := ne_of_gt hs
    constructor
    · simp [track_driver_stop_time, hne]
    · simp [track_driver_stop_time, hne, lookupA_eraseA_self]
  · intro t1 t2 t3 t4 l1 l2 l3 l4 v hv
    have hz : (get_driver_status (some 0)).2 = 0 := by
      simp [get_driver_status]
    have hvne : (get_driver_status (some v)).2 ≠ 0 := by
      simp [get_driver_status, hv]
      exact ne_of_gt hv
    constructor
    · have h1 : (track_driver_stop_time t1 url (some 0) l1 []).2
          = [(url, (⟨t1, l1, false⟩ : StopInfo))] := by
        simp [track_driver_stop_time, hz, lookupA]
        rfl
      rw [h1]
      have h2 : (track_driver_stop_time t2 url (some 0) l2
          [(url, (⟨t1, l1, false⟩ : StopInfo))]).2
          = [(url, (⟨t1, l2, false⟩ : StopInfo))] := by
        simp [track_driver_stop_time, hz, lookupA, insertA, eraseA_singleton]
      rw [h2]
      simp [track_driver_stop_time, hz, lookupA, insertA, eraseA_singleton]
    · simp [track_driver_stop_time, hvne, eraseA_singleton]

/-- Concrete instance of C4: ticks at times 5, 6, 7 with speed 0 build one
episode stamped 5; a tick at time 8 with speed 30 deletes it. -/
theorem stop_episode_state_machine_witness :
    (track_driver_stop_time 7 "u" (some 0) "c"
       (track_driver_stop_time 6 "u" (some 0) "b"
         (track_driver_stop_time 5 "u" (some 0) "a" []).2).2).2
      = [("u", (⟨5, "c", false⟩ : StopInfo))] ∧
    (track_driver_stop_time 8 "u" (some 30) "d"
       [("u", (⟨5, "c", false⟩ : StopInfo))]).2 = [] := by
  exact (stop_episode_state_machine 0 "u" "x" (some 0) []).2.2.2
    5 6 7 8 "a" "b" "c" "d" 30 (by decide)

/-- C10 (no-episode extended-stop check): with no active stop episode for the
source, `check_extended_stop` returns `(false, none)` and leaves the state
unchanged. -/
theorem check_extended_stop_no_episode (now : ℤ) (url : String)
    (st : StopTimes) (h : lookupA st url = none) :
    check_extended_stop now url st = ((false, none), st) := by
  simp [check_extended_stop, h]

/-- Concrete instance of C10: the empty table. -/
theorem check_extended_stop_no_episode_witness :
    check_extended_stop 100 "u" [] = ((false, none), []) :=
  check_extended_stop_no_episode 100 "u" [] rfl

/-- C3 (extended-stop single-fire): with an active episode, calls whose
elapsed time is below the 45-minute threshold, or made after the alert flag
is set, return `(false, none)` and change nothing; the first call at which
elapsed time reaches the threshold while `notified` is still false returns
`(true, elapsed // 60)` and flips `notified`, and any later call on the
resulting state returns `(false, none)` without changing it. -/
theorem check_extended_stop_single_fire (now now' : ℤ) (url : String)
    (st : StopTimes) (info : StopInfo) (h : lookupA st url = some info) :
    ((now - info.stopped_since < extended_stop_threshold ∨
        info.notified = true) →
       check_extended_stop now url st = ((false, none), st)) ∧
    (now - info.stopped_since ≥ extended_stop_threshold →
     info.notified = false →
       check_extended_stop now url st
         = ((true, some ((now - info.stopped_since) / 60)),
            insertA url ⟨info.stopped_since, info.location, true⟩ st) ∧
       check_extended_stop now' url (check_extended_stop now url st).2
         = ((false, none), (check_extended_stop now url st).2)) := by
  constructor
  · intro hcase
    rcases hcase with hlt | hnot
    · have : ¬(now - info.stopped_since ≥ extended_stop_threshold ∧
          info.notified = false) := fun hc => absurd hc.1 (not_le_of_lt hlt)
      simp [check_extended_stop, h, this]
    · have : ¬(now - info.stopped_since ≥ extended_stop_threshold ∧
          info.notified = false) := fun hc => by rw [hnot] at hc; cases hc.2
      simp [check_extended_stop, h, this]
  · intro hge hfalse
    have hfire : check_extended_stop now url st
        = ((true, some ((now - info.stopped_since) / 60)),
           insertA url ⟨info.stopped_since, info.location, true⟩ st) := by
      simp [check_extended_stop, h, hge, hfalse]
    refine ⟨hfire, ?_⟩
    rw [hfire]
    have hl' : lookupA (insertA url
        (⟨info.stopped_since, info.location, true⟩ : StopInfo) st) url
        = some ⟨info.stopped_since, info.location, true⟩ :=
      lookupA_insertA_self _ _ _
    simp [check_extended_stop, hl']

/-- Concrete instance of C3: an episode stopped since time 0, checked at
t = 44 min (no trigger), t = 46 min (fires, reporting 46 minutes), then
t = 50 min on the fired state (no re-trigger). -/
theorem check_extended_stop_single_fire_witness :
    check_extended_stop (44 * 60) "u" [("u", (⟨0, "loc", false⟩ : StopInfo))]
      = ((false, none), [("u", (⟨0, "loc", false⟩ : StopInfo))]) ∧
    check_extended_stop (46 * 60) "u" [("u", (⟨0, "loc", false⟩ : StopInfo))]
      = ((true, some 46),
         insertA "u" (⟨0, "loc", true⟩ : StopInfo)
           [("u", (⟨0, "loc", false⟩ : StopInfo))]) ∧
    check_extended_stop (50 * 60) "u"
        (check_extended_stop (46 * 60) "u"
          [("u", (⟨0, "loc", false⟩ : StopInfo))]).2
      = ((false, none),
         (check_extended_stop (46 * 60) "u"
           [("u", (⟨0, "loc", false⟩ : StopInfo))]).2) := by
  refine ⟨?_, ?_, ?_⟩
  · exact (check_extended_stop_single_fire (44 * 60) 0 "u" _
      ⟨0, "loc", false⟩ (by decide)).1 (Or.inl (by decide))
  · have h := ((check_extended_stop_single_fire (46 * 60) 0 "u"
      [("u", (⟨0, "loc", false⟩ : StopInfo))]
      ⟨0, "loc", false⟩ (by decide)).2 (by decide) rfl).1
    simpa using h
  · exact ((check_extended_stop_single_fire (46 * 60) (50 * 60) "u"
      [("u", (⟨0, "loc", false⟩ : StopInfo))]
      ⟨0, "loc", false⟩ (by decide)).2 (by decide) rfl).2

/-! ### GroupScheduler (`start_group_auto_update` / `stop_group_auto_update`,
main.py 1886-1907)

`self.group_update_tasks` maps a chat id to its asyncio task handle.  Tasks
are modelled by fresh numeric ids drawn from a counter; `alive` is the set of
tasks that have been created and not cancelled.  `stop` cancels (awaits) the
recorded task and removes the bookkeeping; `start` first runs `stop` and
only then creates and records the new task. -/

structure SchedState where
  tasks : List (ℤ × ℕ)
  alive : List (ℤ × ℕ)
  next_id : ℕ

/-- Embedding of `stop_group_auto_update` (main.py 1897-1907). -/
def stop_group_auto_update (chat_id : ℤ) (st : SchedState) : SchedState :=
  match lookupA st.tasks chat_id with
  | none => st
  | some tid =>
      { tasks := eraseA chat_id st.tasks,
        alive := st.alive.filter (fun p => decide (p ≠ (chat_id, tid))),
        next_id := st.next_id }

/-- Embedding of `start_group_auto_update` (main.py 1886-1895): cancel any
existing task first, then create and record a fresh one. -/
def start_group_auto_update (chat_id : ℤ) (st : SchedState) : SchedState :=
  let st1 := stop_group_auto_update chat_id st
  { tasks := insertA chat_id st1.next_id st1.tasks,
    alive := (chat_id, st1.next_id) :: st1.alive,
    next_id := st1.next_id + 1 }

/-- The running loops owned by one consumer. -/
def aliveFor (chat_id : ℤ) (st : SchedState) : List (ℤ × ℕ) :=
  st.alive.filter (fun p => decide (p.1 = chat_id))

/-- The task-table entries recorded for one consumer. -/
def tasksFor (chat_id : ℤ) (st : SchedState) : List (ℤ × ℕ) :=
  st.tasks.filter (fun p => decide (p.1 = chat_id))

/-- Per-consumer well-formedness: the consumer's running loops are exactly
the one recorded in the task table (none if no entry is recorded). -/
def loop_inv (chat_id : ℤ) (st : SchedState) : Prop :=
  match lookupA st.tasks chat_id with
  | none => aliveFor chat_id st = []
  | some tid => aliveFor chat_id st = [(chat_id, tid)]

theorem aliveFor_stop (c : ℤ) (st : SchedState) (h : loop_inv c st) :
    aliveFor c (stop_group_auto_update c st) = [] := by
  unfold loop_inv at h
  cases hl : lookupA st.tasks c with
  | none =>
      rw [hl] at h
      simpa [stop_group_auto_update, hl] using h
  | some tid =>
      rw [hl] at h
      have hs : stop_group_auto_update c st =
          { tasks := eraseA c st.tasks,
            alive := st.alive.filter (fun p => decide (p ≠ (c, tid))),
            next_id := st.next_id } := by
        simp [stop_group_auto_update, hl]
      rw [hs]
      unfold aliveFor at h ⊢
      rw [List.filter_comm]
      rw [h]
      simp [List.filter_cons]

theorem lookupA_stop (c : ℤ) (st : SchedState) :
    lookupA (stop_group_auto_update c st).tasks c = none := by
  cases hl : lookupA st.tasks c with
  | none => simp [stop_group_auto_update, hl]
  | some tid => simp [stop_group_auto_update, hl, lookupA_eraseA_self]

theorem loop_inv_start (c : ℤ) (st : SchedState) (h : loop_inv c st) :
    loop_inv c (start_group_auto_update c st) ∧
    aliveFor c (start_group_auto_update c st)
      = [(c, (stop_group_auto_update c st).next_id)] := by
  have hstop := aliveFor_stop c st h
  have halive : aliveFor c (start_group_auto_update c st)
      = [(c, (stop_group_auto_update c st).next_id)] := by
    unfold aliveFor at hstop ⊢
    simp only [start_group_auto_update, List.filter_cons]
    simp [hstop]
  refine ⟨?_, halive⟩
  unfold loop_inv
  have hl : lookupA (start_group_auto_update c st).tasks c
      = some (stop_group_auto_update c st).next_id := by
    simp [start_group_auto_update, lookupA_insertA_self]
  rw [hl]
  exact halive

/-- C5 (scheduler exclusivity): assuming the per-consumer invariant, after
the cancel step of `start` the consumer has no running loop; one `start`
leaves exactly one running loop and one task-table entry, re-establishes the
invariant, and a second successive `start` still leaves exactly one running
loop. -/
theorem scheduler_exclusivity (c : ℤ) (st : SchedState) (h : loop_inv c st) :
    aliveFor c (stop_group_auto_update c st) = [] ∧
    loop_inv c (start_group_auto_update c st) ∧
    (aliveFor c (start_group_auto_update c st)).length = 1 ∧
    (tasksFor c (start_group_auto_update c st)).length = 1 ∧
    (aliveFor c (start_group_auto_update c
        (start_group_auto_update c st))).length = 1 := by
  obtain ⟨hinv1, halive1⟩ := loop_inv_start c st h
  obtain ⟨_, halive2⟩ := loop_inv_start c (start_group_auto_update c st) hinv1
  refine ⟨aliveFor_stop c st h, hinv1, ?_, ?_, ?_⟩
  · rw [halive1]; rfl
  · unfold tasksFor
    simp only [start_group_auto_update]
    simp only [insertA, List.filter_cons]
    simp [eraseA, List.filter_filter]
  · rw [halive2]; rfl

/-- Concrete instance of C5: from an idle state with no recorded tasks,
two successive starts for chat 7 leave exactly one running loop. -/
theorem scheduler_exclusivity_witness :
    (aliveFor 7 (start_group_auto_update 7
        (start_group_auto_update 7 ⟨[], [], 0⟩))).length = 1 ∧
    aliveFor 7 (stop_group_auto_update 7 ⟨[], [], 0⟩) = [] :=
  ⟨(scheduler_exclusivity 7 ⟨[], [], 0⟩ (by simp [loop_inv, lookupA, aliveFor])).2.2.2.2,
   (scheduler_exclusivity 7 ⟨[], [], 0⟩ (by simp [loop_inv, lookupA, aliveFor])).1⟩

/-! ### Commercial distance-matrix attempt and its circuit breaker
(`calculate_distance_and_time`, main.py 470-557)

`self.gmaps_distance_matrix_available` is the breaker flag.  One provider
response is modelled by its top-level status, the per-pair element status,
and the distance/duration payload. -/

structure MatrixResponse where
  status : String
  elementStatus : String
  distanceMeters : ℚ
  durationSeconds : ℚ

/-- Outcome of one commercial distance-matrix attempt: the payload if the
pair resolved, the new breaker flag, and whether the provider was
contacted at all. -/
structure MatrixAttempt where
  result : Option (ℚ × ℚ)
  available : Bool
  attempted : Bool

/-- Embedding of the Google Distance Matrix branch of
`calculate_distance_and_time` (main.py 470-557).  The provider is only
contacted while `gmaps_distance_matrix_available` is set; an `OK` pair gives
a result; a non-`OK` element status is a soft miss; a top-level
`REQUEST_DENIED` clears the flag; `OVER_QUERY_LIMIT` and any other status
are soft misses that leave the flag alone. -/
def attempt_distance_matrix (available : Bool) (resp : MatrixResponse) :
    MatrixAttempt :=
  if available then
    if resp.status = "OK" then
      if resp.elementStatus = "OK" then
        { result := some (resp.distanceMeters * (621371 / 1000000000),
            resp.durationSeconds / 60),
          available := true, attempted := true }
      else
        { result := none, available := true, attempted := true }
    else if resp.status = "REQUEST_DENIED" then
      { result := none, available := false, attempted := true }
    else
      { result := none, available := true, attempted := true }
  else
    { result := none, available := available, attempted := false }

/-- Run a sequence of distance resolutions against the provider, threading
the breaker flag; returns the `attempted` flag of every call and the final
breaker state. -/
def run_matrix_calls (available : Bool) : List MatrixResponse →
    List Bool × Bool
  | [] => ([], available)
  | resp :: rest =>
      let a := attempt_distance_matrix available resp
      let r := run_matrix_calls a.available rest
      (a.attempted :: r.1, r.2)

theorem run_matrix_calls_disabled (resps : List MatrixResponse) :
    run_matrix_calls false resps
      = (List.replicate resps.length false, false) := by
  induction resps with
  | nil => rfl
  | cons r rest ih =>
      simp [run_matrix_calls, attempt_distance_matrix, ih, List.replicate]

/-- C7 (sticky circuit-breaker): a `REQUEST_DENIED` response clears the
breaker flag, and from then on no later resolution ever contacts the
commercial provider again; a quota-exceeded (`OVER_QUERY_LIMIT`) response is
a soft miss for that call only — it yields no result but leaves the provider
enabled and attempted on later calls. -/
theorem sticky_circuit_breaker (denied quota : MatrixResponse)
    (hd : denied.status = "REQUEST_DENIED")
    (hq : quota.status = "OVER_QUERY_LIMIT")
    (later : List MatrixResponse) :
    ((attempt_distance_matrix true denied).available = false ∧
     run_matrix_calls (attempt_distance_matrix true denied).available later
       = (List.replicate later.length false, false)) ∧
    ((attempt_distance_matrix true quota).result = none ∧
     (attempt_distance_matrix true quota).available = true ∧
     (attempt_distance_matrix true quota).attempted = true) := by
  have hd' : denied.status ≠ "OK" := by rw [hd]; decide
  have hq' : quota.status ≠ "OK" := by rw [hq]; decide
  have hq'' : quota.status ≠ "REQUEST_DENIED" := by rw [hq]; decide
  constructor
  · have hav : (attempt_distance_matrix true denied).available = false := by
      simp [attempt_distance_matrix, hd', hd]
    exact ⟨hav, by rw [hav]; exact run_matrix_calls_disabled later⟩
  · refine ⟨?_, ?_, ?_⟩ <;> simp [attempt_distance_matrix, hq', hq'']

/-- Concrete instance of C7: after one denied response, three later calls
never contact the provider; a quota response leaves the provider enabled. -/
theorem sticky_circuit_breaker_witness :
    run_matrix_calls
        (attempt_distance_matrix true ⟨"REQUEST_DENIED", "", 0, 0⟩).available
        [⟨"OK", "OK", 1000, 60⟩, ⟨"OK", "OK", 2000, 120⟩,
         ⟨"OK", "OK", 3000, 180⟩]
      = ([false, false, false], false) ∧
    (attempt_distance_matrix true ⟨"OVER_QUERY_LIMIT", "", 0, 0⟩).available
      = true := by
  have h := sticky_circuit_breaker ⟨"REQUEST_DENIED", "", 0, 0⟩
    ⟨"OVER_QUERY_LIMIT", "", 0, 0⟩ rfl rfl
    [⟨"OK", "OK", 1000, 60⟩, ⟨"OK", "OK", 2000, 120⟩, ⟨"OK", "OK", 3000, 180⟩]
  exact ⟨h.1.2, h.2.2.1⟩

/-! ### Telemetry memo (`get_cached_data` / `set_cached_data`, main.py
726-743) and its two callers: the interactive `location_command` fetch
(main.py 1384-1399) and the scheduler-tick fetch in `process_group_update`
(main.py 1806-1814)

Snapshots are opaque values (numbers); `fetch` is an oracle indexed by the
number of heavyweight fetches performed so far, so the fetch count is
observable. -/

abbrev DataCache := List (String × (ℕ × ℤ))

/-- `self.cache_duration = 15` seconds. -/
def cache_duration : ℤ := 15

/-- Embedding of `get_cached_data` (main.py 726-737): a hit within the TTL
returns the data; an expired entry is removed. -/
def get_cached_data (now : ℤ) (cache_key : String) (cache : DataCache) :
    Option ℕ × DataCache :=
  match lookupA cache cache_key with
  | none => (none, cache)
  | some (data, ts) =>
      if now - ts < cache_duration then (some data, cache)
      else (none, eraseA cache_key cache)

/-- Embedding of `set_cached_data` (main.py 739-743). -/
def set_cached_data (now : ℤ) (cache_key : String) (data : ℕ)
    (cache : DataCache) : DataCache :=
  insertA cache_key (data, now) cache

structure GateState where
  cache : DataCache
  fetch_count : ℕ

/-- Cache key used by `location_command` (main.py 1385). -/
def location_cache_key (chat_id : ℤ) (eld_url : String) : String :=
  "location_" ++ toString chat_id ++ "_" ++ eld_url

/-- Embedding of the telemetry fetch in `location_command` (main.py
1384-1399): consult the memo first; on a miss run the heavyweight extraction
and memoize the snapshot. -/
def location_command_fetch (fetch : ℕ → ℕ) (now : ℤ) (chat_id : ℤ)
    (eld_url : String) (st : GateState) : ℕ × GateState :=
  let key := location_cache_key chat_id eld_url
  match get_cached_data now key st.cache with
  | (some data, cache') => (data, { st with cache := cache' })
  | (none, cache') =>
      let data := fetch st.fetch_count
      (data, { cache := set_cached_data now key data cache',
               fetch_count := st.fetch_count + 1 })

/-- Embedding of the telemetry fetch in `process_group_update` (main.py
1806-1814): the scheduler tick runs the heavyweight extraction directly,
without consulting or populating the memo. -/
def process_group_update_fetch (fetch : ℕ → ℕ) (st : GateState) :
    ℕ × GateState :=
  let data := fetch st.fetch_count
  (data, { st with fetch_count := st.fetch_count + 1 })

/-- C2 counterexample: from an empty memo, an interactive fetch at t = 0 for
chat 1 followed by a scheduler-tick fetch for the same consumer (well inside
the 15 s TTL, the tick never reads the memo at any time) performs two
underlying heavyweight fetches, not one. -/
theorem telemetry_memo_counterexample :
    (process_group_update_fetch (fun n => n)
        (location_command_fetch (fun n => n) 0 1 "u" ⟨[], 0⟩).2).2.fetch_count
      = 2 ∧
    (location_command_fetch (fun n => n) 0 1 "u" ⟨[], 0⟩).2.fetch_count
      = 1 := by
  constructor <;> rfl

/-- C2 amended: two interactive fetches for the same (consumer, source) key,
the first missing the memo, issued within the 15 s TTL result in exactly one
underlying fetch — the second returns the memoized snapshot and changes
nothing; a scheduler-tick fetch, however, never consults the memo and always
performs its own underlying fetch. -/
theorem telemetry_memo_reuse (fetch : ℕ → ℕ) (now now' chat_id : ℤ)
    (eld_url : String) (st : GateState)
    (hmiss : lookupA st.cache (location_cache_key chat_id eld_url) = none)
    (httl : now' - now < cache_duration) :
    location_command_fetch fetch now' chat_id eld_url
        (location_command_fetch fetch now chat_id eld_url st).2
      = ((location_command_fetch fetch now chat_id eld_url st).1,
         (location_command_fetch fetch now chat_id eld_url st).2) ∧
    (location_command_fetch fetch now chat_id eld_url st).2.fetch_count
      = st.fetch_count + 1 ∧
    (∀ s : GateState, (process_group_update_fetch fetch s).2.fetch_count
      = s.fetch_count + 1) := by
  have h1 : location_command_fetch fetch now chat_id eld_url st
      = (fetch st.fetch_count,
         { cache := set_cached_data now (location_cache_key chat_id eld_url)
             (fetch st.fetch_count) st.cache,
           fetch_count := st.fetch_count + 1 }) := by
    simp [location_command_fetch, get_cached_data, hmiss]
  refine ⟨?_, by rw [h1], fun s => rfl⟩
  rw [h1]
  simp [location_command_fetch, get_cached_data, set_cached_data,
    lookupA_insertA_self, httl]

/-- Concrete instance of the amended C2: an interactive fetch at t = 0 and a
second one at t = 10 for the same consumer and source share one underlying
fetch, while a scheduler tick adds one. -/
theorem telemetry_memo_reuse_witness :
    location_command_fetch (fun n => n + 100) 10 1 "u"
        (location_command_fetch (fun n => n + 100) 0 1 "u" ⟨[], 0⟩).2
      = ((location_command_fetch (fun n => n + 100) 0 1 "u" ⟨[], 0⟩).1,
         (location_command_fetch (fun n => n + 100) 0 1 "u" ⟨[], 0⟩).2) ∧
    (location_command_fetch (fun n => n + 100) 0 1 "u" ⟨[], 0⟩).2.fetch_count
      = 1 := by
  have h := telemetry_memo_reuse (fun n => n + 100) 0 10 1 "u" ⟨[], 0⟩
    rfl (by decide)
  exact ⟨h.1, h.2.1⟩

/-! ### Duration text formatting (`osrm_distance` main.py 163-180, the
Google branch main.py 502-526, and the haversine branch main.py 591-622)

Python's fixed-point float formatting is modelled over the rationals:
rounding to the nearest, ties to the even digit. -/

/-- Mathematical floor of a rational, on the normalized representation. -/
def qfloor (q : ℚ) : ℤ := q.num.fdiv (q.den : ℤ)

/-- Round to the nearest integer, ties to even (the rounding used by
Python's fixed-point format specifiers). -/
def roundHalfEven (q : ℚ) : ℤ :=
  let f := qfloor q
  let frac := q - (f : ℚ)
  if frac < 1/2 then f
  else if 1/2 < frac then f + 1
  else if f % 2 = 0 then f else f + 1

/-- Python `"%.1f"`: one decimal digit. -/
def fmtFixed1 (q : ℚ) : String :=
  let n := roundHalfEven (q * 10)
  let sign := if n < 0 then "-" else ""
  let m := n.natAbs
  sign ++ toString (m / 10) ++ "." ++ toString (m % 10)

/-- Python `"%.0f"`: no decimal digits. -/
def fmtFixed0 (q : ℚ) : String := toString (roundHalfEven q)

/-- The duration text of the OSRM and Google Distance Matrix branches
(main.py 167-171 and 511-515): at least one hour gives one-decimal hours,
otherwise whole minutes. -/
def format_duration_text (duration_minutes duration_hours : ℚ) : String :=
  if duration_hours ≥ 1 then fmtFixed1 duration_hours ++ " hr"
  else fmtFixed0 duration_minutes ++ " min"

/-- Duration text computed by `osrm_distance` (main.py 163-171) from the
route duration in seconds. -/
def osrm_duration_text (duration_seconds : ℚ) : String :=
  format_duration_text (duration_seconds / 60) (duration_seconds / 60 / 60)

/-- Duration text computed in the Google Distance Matrix branch of
`calculate_distance_and_time` (main.py 502-515) from the pair duration in
seconds. -/
def gmaps_duration_text (duration_seconds : ℚ) : String :=
  format_duration_text (duration_seconds / 60) (duration_seconds / 60 / 60)

/-- Duration text of the haversine fallback branch of
`calculate_distance_and_time` (main.py 602-606): same shape, but suffixed
with " (estimated)". -/
def haversine_duration_text (duration_minutes duration_hours : ℚ) : String :=
  if duration_hours ≥ 1 then fmtFixed1 duration_hours ++ " hr (estimated)"
  else fmtFixed0 duration_minutes ++ " min (estimated)"

theorem fdiv_one (n : ℤ) : n.fdiv 1 = n := by
  cases n with
  | ofNat m =>
      cases m with
      | zero => rfl
      | succ k =>
          show Int.ofNat ((k + 1) / 1) = Int.ofNat (k + 1)
          rw [Nat.div_one]
  | negSucc m =>
      show Int.negSucc (m / 1) = Int.negSucc m
      rw [Nat.div_one]

theorem qfloor_intCast (n : ℤ) : qfloor (n : ℚ) = n := by
  unfold qfloor
  rw [Rat.num_intCast, Rat.den_intCast]
  exact fdiv_one n

theorem roundHalfEven_intCast (n : ℤ) : roundHalfEven (n : ℚ) = n := by
  unfold roundHalfEven
  rw [qfloor_intCast]
  norm_num

theorem fmtFixed0_intCast (n : ℤ) : fmtFixed0 (n : ℚ) = toString n := by
  unfold fmtFixed0
  rw [roundHalfEven_intCast]

/-- C6 counterexample: on the great-circle fallback path a 90-minute
duration is rendered "1.5 hr (estimated)", not exactly "1.5 hr" as the
claim requires of every resolution path. -/
theorem duration_text_counterexample :
    haversine_duration_text 90 (3/2) = "1.5 hr (estimated)" ∧
    haversine_duration_text 90 (3/2) ≠ "1.5 hr" := by
  have hge : (3/2 : ℚ) ≥ 1 := by norm_num
  have h10 : (3/2 : ℚ) * 10 = ((15 : ℤ) : ℚ) := by norm_num
  have hfmt : fmtFixed1 (3/2) = "1.5" := by
    unfold fmtFixed1
    rw [h10, roundHalfEven_intCast]
    decide
  have hval : haversine_duration_text 90 (3/2) = "1.5 hr (estimated)" := by
    unfold haversine_duration_text
    rw [if_pos hge, hfmt]
    decide
  exact ⟨hval, by rw [hval]; decide⟩

/-- C6 amended: on the commercial and road-routing paths the duration text
is exactly one-decimal hours when the duration is at least one hour and
whole minutes otherwise (45 minutes gives "45 min", 90 minutes gives
"1.5 hr"); the great-circle fallback produces the same text suffixed with
" (estimated)". -/
theorem duration_text_format :
    (∀ m h : ℚ, haversine_duration_text m h
        = format_duration_text m h ++ " (estimated)") ∧
    osrm_duration_text 2700 = "45 min" ∧
    gmaps_duration_text 2700 = "45 min" ∧
    osrm_duration_text 5400 = "1.5 hr" ∧
    gmaps_duration_text 5400 = "1.5 hr" := by
  have hmin45 : (2700 : ℚ) / 60 = ((45 : ℤ) : ℚ) := by norm_num
  have hhr45 : ¬((2700 : ℚ) / 60 / 60 ≥ 1) := by norm_num
  have hhr90 : (5400 : ℚ) / 60 / 60 ≥ 1 := by norm_num
  have h10 : (5400 : ℚ) / 60 / 60 * 10 = ((15 : ℤ) : ℚ) := by norm_num
  have hfmt90 : fmtFixed1 (5400 / 60 / 60) = "1.5" := by
    unfold fmtFixed1
    rw [h10, roundHalfEven_intCast]
    decide
  have h45 : osrm_duration_text 2700 = "45 min" := by
    unfold osrm_duration_text format_duration_text
    rw [if_neg hhr45, hmin45, fmtFixed0_intCast]
    decide
  have h90 : osrm_duration_text 5400 = "1.5 hr" := by
    unfold osrm_duration_text format_duration_text
    rw [if_pos hhr90, hfmt90]
    decide
  refine ⟨?_, h45, h45, h90, h90⟩
  intro m h
  by_cases hc : h ≥ 1
  · simp only [haversine_duration_text, format_duration_text, if_pos hc,
      String.append_assoc]
    exact congrArg (fun t => fmtFixed1 h ++ t) (by decide)
  · simp only [haversine_duration_text, format_duration_text, if_neg hc,
      String.append_assoc]
    exact congrArg (fun t => fmtFixed0 m ++ t) (by decide)

/-! ### GeoResolver (`get_cached_geocoding` / `set_geocoding_cache` /
`geocode_address`, main.py 296-420)

`self.geocoding_cache` maps an address to (lat, lon, timestamp).  The
network providers and the regex-driven variant generator are oracle
parameters.  For the structured and city/state Nominatim stages a variant
whose regex does not match issues no HTTP request, modelled by an outer
`none`; `some none` is a request that returned nothing; `some (some c)` is
a successful request. -/

abbrev GeoCache := List (String × (ℚ × ℚ × ℤ))

/-- `self.geocoding_cache_duration = 3600` seconds. -/
def geocoding_cache_duration : ℤ := 3600

/-- Embedding of `get_cached_geocoding` (main.py 296-306): a hit within the
TTL returns the coordinates; an expired entry is deleted. -/
def get_cached_geocoding (now : ℤ) (address : String) (cache : GeoCache) :
    Option (ℚ × ℚ) × GeoCache :=
  match lookupA cache address with
  | none => (none, cache)
  | some (lat, lon, ts) =>
      if now - ts < geocoding_cache_duration then (some (lat, lon), cache)
      else (none, eraseA address cache)

/-- Embedding of `set_geocoding_cache` (main.py 308-311). -/
def set_geocoding_cache (now : ℤ) (address : String) (lat lon : ℚ)
    (cache : GeoCache) : GeoCache :=
  insertA address (lat, lon, now) cache

/-- Oracles for `geocode_address`: the address-variant generator
(`parse_and_clean_address`), the Google geocoder (tried when `self.gmaps`
is set), and the three Nominatim strategies. -/
structure GeoProviders where
  variants : String → List String
  gmapsEnabled : Bool
  google : String → Option (ℚ × ℚ)
  osmFree : String → Option (ℚ × ℚ)
  osmStructured : String → Option (Option (ℚ × ℚ))
  osmCity : String → Option (Option (ℚ × ℚ))

/-- Try one provider on each variant in order, counting every request;
stop at the first hit (main.py loops at 328-341, 346-364). -/
def tryStage (f : String → Option (ℚ × ℚ)) :
    List String → ℕ → Option (ℚ × ℚ) × ℕ
  | [], n => (none, n)
  | v :: vs, n =>
      match f v with
      | some c => (some c, n + 1)
      | none => tryStage f vs (n + 1)

/-- Same, for the stages whose regex may rule a variant out before any
request is made (main.py loops at 368-390, 394-413). -/
def tryStageOpt (f : String → Option (Option (ℚ × ℚ))) :
    List String → ℕ → Option (ℚ × ℚ) × ℕ
  | [], n => (none, n)
  | v :: vs, n =>
      match f v with
      | none => tryStageOpt f vs n
      | some none => tryStageOpt f vs (n + 1)
      | some (some c) => (some c, n + 1)

/-- The provider fallback chain of `geocode_address` (main.py 326-416):
Google over all variants, then Nominatim free-text, then Nominatim
structured, then Nominatim city/state; first hit wins. -/
def resolve_providers (P : GeoProviders) (vs : List String) (n : ℕ) :
    Option (ℚ × ℚ) × ℕ :=
  match (if P.gmapsEnabled then tryStage P.google vs n else (none, n)) with
  | (some c, n1) => (some c, n1)
  | (none, n1) =>
      match tryStage P.osmFree vs n1 with
      | (some c, n2) => (some c, n2)
      | (none, n2) =>
          match tryStageOpt P.osmStructured vs n2 with
          | (some c, n3) => (some c, n3)
          | (none, n3) => tryStageOpt P.osmCity vs n3

/-- Embedding of `geocode_address` (main.py 313-420).  The state is the
geocoding cache together with the number of provider requests issued so
far; every success path stores the result under the original address. -/
def geocode_address (P : GeoProviders) (now : ℤ) (address : String)
    (st : GeoCache × ℕ) : Option (ℚ × ℚ) × (GeoCache × ℕ) :=
  match get_cached_geocoding now address st.1 with
  | (some c, cache1) => (some c, (cache1, st.2))
  | (none, cache1) =>
      match resolve_providers P (P.variants address) st.2 with
      | (some c, n1) =>
          (some c, (set_geocoding_cache now address c.1 c.2 cache1, n1))
      | (none, n1) => (none, (cache1, n1))

/-- Providers for which every request fails. -/
def geoProvidersFail : GeoProviders :=
  { variants := fun a => [a],
    gmapsEnabled := true,
    google := fun _ => none,
    osmFree := fun _ => none,
    osmStructured := fun _ => none,
    osmCity := fun _ => none }

/-- Providers whose Google stage always answers (7, 8). -/
def geoProvidersHit : GeoProviders :=
  { variants := fun a => [a],
    gmapsEnabled := true,
    google := fun _ => some (7, 8),
    osmFree := fun _ => none,
    osmStructured := fun _ => none,
    osmCity := fun _ => none }

/-- C8 counterexample.  First: for an address every provider fails on, the
two calls 10 s apart issue two provider requests each (four in total, and
in particular the second call's request count is not zero).  Second: with a
pre-existing entry recorded at time 0, a call at t = 3599 is served from the
cache but a second call one second later finds the entry expired, issues a
provider request, and returns different coordinates. -/
theorem geocode_idempotence_counterexample :
    ((geocode_address geoProvidersFail 10 "A"
        (geocode_address geoProvidersFail 0 "A" ([], 0)).2).2.2 = 4 ∧
     (geocode_address geoProvidersFail 0 "A" ([], 0)).2.2 = 2) ∧
    ((geocode_address geoProvidersHit 3599 "A" ([("A", (1, 2, 0))], 0)).1
        = some (1, 2) ∧
     (geocode_address geoProvidersHit 3600 "A"
        (geocode_address geoProvidersHit 3599 "A"
          ([("A", (1, 2, 0))], 0)).2).1 = some (7, 8) ∧
     (geocode_address geoProvidersHit 3600 "A"
        (geocode_address geoProvidersHit 3599 "A"
          ([("A", (1, 2, 0))], 0)).2).2.2 = 1) := by
  refine ⟨⟨?_, ?_⟩, ?_, ?_, ?_⟩ <;> rfl

/-- C8 amended: for every address whose resolution misses the cache and
succeeds via a provider, a second call within `geocoding_cache_duration`
returns identical coordinates, is served from the cache, and issues no
provider request (so the total request count across both calls is that of
the first call alone). -/
theorem geocode_idempotence (P : GeoProviders) (now now' : ℤ)
    (address : String) (st : GeoCache × ℕ) (c : ℚ × ℚ)
    (hmiss : (get_cached_geocoding now address st.1).1 = none)
    (hsucc : (geocode_address P now address st).1 = some c)
    (httl : now' - now < geocoding_cache_duration) :
    geocode_address P now' address (geocode_address P now address st).2
      = (some c, (geocode_address P now address st).2) := by
  rcases hg : get_cached_geocoding now address st.1 with ⟨cres, cache1⟩
  have hcres : cres = none := by rw [hg] at hmiss; exact hmiss
  subst hcres
  rcases hr : resolve_providers P (P.variants address) st.2 with ⟨rres, n1⟩
  cases rres with
  | none =>
      rw [show geocode_address P now address st = (none, (cache1, n1)) by
        simp [geocode_address, hg, hr]] at hsucc
      cases hsucc
  | some c0 =>
      have h1 : geocode_address P now address st
          = (some c0, (set_geocoding_cache now address c0.1 c0.2 cache1, n1)) := by
        simp [geocode_address, hg, hr]
      have hc : c0 = c := by
        rw [h1] at hsucc
        exact Option.some.inj hsucc
      rw [h1]
      have h2 : get_cached_geocoding now' address
          (set_geocoding_cache now address c0.1 c0.2 cache1)
          = (some (c0.1, c0.2),
             set_geocoding_cache now address c0.1 c0.2 cache1) := by
        simp [get_cached_geocoding, set_geocoding_cache, lookupA_insertA_self,
          httl]
      rw [← hc]
      simp [geocode_address, h2]

/-- Concrete instance of the amended C8: a fresh resolution of "A" at t = 0
(one provider request) followed by a second call at t = 10, which is served
from the cache with the request count still 1. -/
theorem geocode_idempotence_witness :
    geocode_address geoProvidersHit 10 "A"
        (geocode_address geoProvidersHit 0 "A" ([], 0)).2
      = (some (7, 8), (geocode_address geoProvidersHit 0 "A" ([], 0)).2) ∧
    (geocode_address geoProvidersHit 0 "A" ([], 0)).2.2 = 1 :=
  ⟨geocode_idempotence geoProvidersHit 0 10 "A" ([], 0) (7, 8) rfl rfl
    (by decide), rfl⟩

/-! ### Haversine great-circle computation (`haversine_distance`,
main.py 197-232)

Coordinates and the trigonometry are over the reals; `radians(x)` is
x·π/180, the Earth radius is 3959 miles and the assumed average speed is
60 mph.  The result triple is (distance_miles, duration_minutes,
duration_hours). -/

noncomputable def haversine_distance (lat1 lon1 lat2 lon2 : ℝ) : ℝ × ℝ × ℝ :=
  let rlat1 := lat1 * (Real.pi / 180)
  let rlon1 := lon1 * (Real.pi / 180)
  let rlat2 := lat2 * (Real.pi / 180)
  let rlon2 := lon2 * (Real.pi / 180)
  let dlat := rlat2 - rlat1
  let dlon := rlon2 - rlon1
  let a := Real.sin (dlat / 2) ^ 2 +
    Real.cos rlat1 * Real.cos rlat2 * Real.sin (dlon / 2) ^ 2
  let c := 2 * Real.arcsin (Real.sqrt a)
  let distance := c * 3959
  let duration_minutes := distance / 60 * 60
  let duration_hours := duration_minutes / 60
  (distance, duration_minutes, duration_hours)

/-- C9 (haversine symmetry): swapping the two endpoints leaves the computed
distance, duration in minutes and duration in hours unchanged, and the
computation from a point to itself gives zero for all three. -/
theorem haversine_symm_and_self (lat1 lon1 lat2 lon2 : ℝ) :
    haversine_distance lat1 lon1 lat2 lon2
      = haversine_distance lat2 lon2 lat1 lon1 ∧
    haversine_distance lat1 lon1 lat1 lon1 = (0, 0, 0) := by
  have hsin : ∀ x y : ℝ, Real.sin ((x - y) / 2) ^ 2
      = Real.sin ((y - x) / 2) ^ 2 := by
    intro x y
    rw [show (x - y) / 2 = -((y - x) / 2) by ring, Real.sin_neg, neg_sq]
  have main : ∀ w x y z : ℝ,
      Real.sin ((y - w) / 2) ^ 2 +
        Real.cos w * Real.cos y * Real.sin ((z - x) / 2) ^ 2
      = Real.sin ((w - y) / 2) ^ 2 +
        Real.cos y * Real.cos w * Real.sin ((x - z) / 2) ^ 2 := by
    intro w x y z
    rw [hsin y w, hsin z x]
    ring
  constructor
  · simp only [haversine_distance]
    rw [main (lat1 * (Real.pi / 180)) (lon1 * (Real.pi / 180))
      (lat2 * (Real.pi / 180)) (lon2 * (Real.pi / 180))]
  · simp only [haversine_distance, sub_self, zero_div, Real.sin_zero]
    norm_num

end SuperTrackingBot
